import Mathlib

/-!
Shallow embedding of the Wunderlust chat client and its relay backend.

Frontend source: `src/frontend/src/app.tsx` (the `App` component).  React
`useState`/`useRef` cells become fields of `AppState`; each `async` handler
becomes a function `AppState → ⋯ → AppState × Option JsError`, where the
`Option JsError` component is the promise-rejection channel.  Every `axios`
request the code issues is recorded in a `trace` field (the remote calls
made, in order); the response a request would receive is passed in as an
explicit argument, since the transport is a black box.  A `setTimeout`
registration is recorded in `scheduledRunClears` (the delays, in ms, of
pending "clear the run id" callbacks).  `JSON.parse` of a tool call's
argument string is modelled as the already-parsed record `ToolArgs` of the
expected shape.  The `mixpanel` analytics calls and DOM refs are omitted:
no claim concerns them.

Backend source: the Express handler module (`sendMessage` and the routes).
Its remote effects (OpenAI API calls, database insert) are likewise
recorded as a trace, with each `await`'s outcome passed in explicitly.
-/

namespace Wunderlust

/-- Latitude/longitude pair, as stored in `mapCenter`.  JS numbers are
modelled as rationals; the handlers only store them, never compute. -/
structure MapCenter where
  latitude : ℚ
  longitude : ℚ
deriving DecidableEq, Repr

/-- A labelled map marker, as stored in `mapMarker`. -/
structure MapMarker where
  latitude : ℚ
  longitude : ℚ
  label : String
deriving DecidableEq, Repr

/-- One content part of a thread message: the client only distinguishes
text parts (rendered) from everything else (skipped). -/
inductive ContentPart
  | text (value : String)
  | other
deriving DecidableEq, Repr

/-- A message of the conversation log, as returned by `/chat/list`. -/
structure ThreadMessage where
  role : String
  content : List ContentPart
deriving DecidableEq, Repr

/-- The parsed `arguments` object of a tool call: the union of the fields
the two registered handlers destructure (`JSON.parse` is modelled as
yielding this record directly). -/
structure ToolArgs where
  latitude : ℚ
  longitude : ℚ
  zoom : ℚ
  label : String
deriving DecidableEq, Repr

/-- The `function` field of a tool call: a name and its argument payload. -/
structure ToolFunction where
  name : String
  arguments : ToolArgs
deriving DecidableEq, Repr

/-- One tool call of a `submit_tool_outputs` required action.  `type` is
kept as a string because the code compares it against `"function"`. -/
structure ToolCall where
  id : String
  type : String
  function : ToolFunction
deriving DecidableEq, Repr

/-- The `required_action` field of a run; `tool_calls` is the list found
under `submit_tool_outputs.tool_calls` in the API object. -/
structure RequiredAction where
  type : String
  tool_calls : List ToolCall
deriving DecidableEq, Repr

/-- The slice of the remote run object the client reads. -/
structure Run where
  required_action : Option RequiredAction
deriving DecidableEq, Repr

/-- An element of the list of tool outputs posted to `/chat/submit`. -/
structure ToolOutput where
  tool_call_id : String
  output : String
deriving DecidableEq, Repr

/-- A transport-level failure message (a rejected `axios` promise). -/
abbrev TransportError := String

/-- The errors a frontend operation can surface to its caller, plus the
two error kinds named by the specification (`conflictError`,
`unknownFunction`) so that claims about them can be stated; the embedding
shows the code never produces those two. -/
inductive JsError
  | typeError (msg : String)
  | transport (e : TransportError)
  | conflictError
  | unknownFunction (name : String)
deriving DecidableEq, Repr

/-- The remote requests the frontend can issue, with the payloads it
sends. -/
inductive RemoteCall
  | chatNew
  | chatSend (threadId : Option String) (text : String)
  | chatList (threadId : Option String) (runId : Option String)
  | chatSubmit (threadId : Option String) (runId : Option String)
      (outputs : List ToolOutput)
deriving DecidableEq, Repr

/-- Recognises a `/chat/submit` request. -/
def RemoteCall.isSubmit : RemoteCall → Bool
  | RemoteCall.chatSubmit _ _ _ => true
  | _ => false

/-- The client state: every React state/ref cell of `App` that the claims can
observe, plus the remote-call trace and the pending `setTimeout`
registrations that clear the run id. -/
structure AppState where
  threadId : Option String
  storedThreadId : Option String
  runId : Option String
  messages : List ThreadMessage
  message : String
  chatbotVisible : Bool
  showInfo : Bool
  mapCenter : MapCenter
  mapZoom : ℚ
  mapMarker : Option MapMarker
  trace : List RemoteCall
  scheduledRunClears : List Nat
deriving DecidableEq, Repr

/-- The initial client state (the `useState` initial values; local storage
empty; no requests made yet). -/
def initialAppState : AppState :=
  { threadId := none
    storedThreadId := none
    runId := none
    messages := []
    message := ""
    chatbotVisible := true
    showInfo := true
    mapCenter := { latitude := (51505 : ℚ) / 1000, longitude := (-9 : ℚ) / 100 }
    mapZoom := 13
    mapMarker := none
    trace := []
    scheduledRunClears := [] }

/-- `updateMap`: recenters and rezooms the map, returns the confirmation
string. -/
def updateMap (args : ToolArgs) (s : AppState) : AppState × String :=
  ({ s with
      mapCenter := { latitude := args.latitude, longitude := args.longitude }
      mapZoom := args.zoom },
   "Map updated")

/-- `addMarker`: places a labelled marker, returns the confirmation
string. -/
def addMarker (args : ToolArgs) (s : AppState) : AppState × String :=
  ({ s with
      mapMarker := some
        { latitude := args.latitude, longitude := args.longitude
          label := args.label } },
   "Marker added")

/-- The `chatbotFunctions` object: property lookup by name; an absent
property reads as `undefined`, i.e. `none`. -/
def chatbotFunctions (name : String) :
    Option (ToolArgs → AppState → AppState × String) :=
  if name = "updateMap" then some updateMap
  else if name = "addMarker" then some addMarker
  else none

/-- The `for`-loop body of `invokeChatbotFunctions`: walks the tool calls,
skips entries whose `type` is not `"function"`, looks each name up in
`chatbotFunctions` and applies the handler.  A name not present makes the
JS expression `chatbotFunctions[functionName](toolArgs)` call `undefined`,
which raises a `TypeError`; handler side effects already performed before
the raise persist, hence the state is returned alongside the `Except`. -/
def computeToolOutputs :
    List ToolCall → AppState → AppState × Except JsError (List ToolOutput)
  | [], s => (s, Except.ok [])
  | tc :: rest, s =>
    if tc.type = "function" then
      match chatbotFunctions tc.function.name with
      | none =>
          (s, Except.error
            (JsError.typeError (tc.function.name ++ " is not a function")))
      | some handler =>
          let r1 := handler tc.function.arguments s
          let r2 := computeToolOutputs rest r1.1
          (r2.1, r2.2.map fun outs =>
            { tool_call_id := tc.id, output := r1.2 } :: outs)
    else
      computeToolOutputs rest s

/-- `invokeChatbotFunctions`: if the run's required action is
`submit_tool_outputs`, runs every function-typed tool call through the
registry and posts the collected outputs to `/chat/submit`. -/
def invokeChatbotFunctions (run : Run) (s : AppState) :
    AppState × Option JsError :=
  match run.required_action with
  | some ra =>
    if ra.type = "submit_tool_outputs" then
      let r := computeToolOutputs ra.tool_calls s
      match r.2 with
      | Except.error e => (r.1, some e)
      | Except.ok outputs =>
          ({ r.1 with
              trace := r.1.trace ++
                [RemoteCall.chatSubmit r.1.threadId r.1.runId outputs] },
           none)
    else (s, none)
  | none => (s, none)

/-- The response body of `/chat/list`: the backend sets `status` and `run`
only when a `runId` was supplied, so both are optional. -/
structure ListResponse where
  messages : List ThreadMessage
  status : Option String
  run : Option Run
deriving DecidableEq, Repr

/-- `updateMessages`: polls `/chat/list`, replaces the displayed log with
the reversed snapshot, dispatches tool calls when the status is
`requires_action` (calling `invokeChatbotFunctions(run)` with an
`undefined` run raises a `TypeError` at `run.required_action`), and on
`completed` while a run id is held schedules a 5000 ms callback that
clears the run id. -/
def updateMessages (s : AppState) (resp : ListResponse) :
    AppState × Option JsError :=
  let s1 : AppState :=
    { s with
        trace := s.trace ++ [RemoteCall.chatList s.threadId s.runId]
        messages := resp.messages.reverse }
  let dispatched : AppState × Option JsError :=
    if resp.status = some "requires_action" then
      match resp.run with
      | some run => invokeChatbotFunctions run s1
      | none =>
          (s1, some (JsError.typeError
            "Cannot read properties of undefined reading required_action"))
    else (s1, none)
  let s2 := dispatched.1
  match dispatched.2 with
  | some e => (s2, some e)
  | none =>
    if s2.runId.isSome then
      if resp.status = some "completed" then
        ({ s2 with scheduledRunClears := s2.scheduledRunClears ++ [5000] },
         none)
      else (s2, none)
    else (s2, none)

/-- `createThread`: restores the thread id from local storage when memory
holds none (polling once against it), keeps an existing id, and otherwise
requests a fresh id from `/chat/new` and persists it.  The transport's
fresh id and the restore poll's response are explicit arguments. -/
def createThread (s : AppState) (freshId : String)
    (restoreResp : ListResponse) : AppState × Option JsError :=
  let restored : AppState × Option JsError :=
    if s.threadId = none then
      match s.storedThreadId with
      | some stored => updateMessages { s with threadId := some stored } restoreResp
      | none => (s, none)
    else (s, none)
  let s1 := restored.1
  match restored.2 with
  | some e => (s1, some e)
  | none =>
    if s1.threadId.isSome then (s1, none)
    else
      ({ s1 with
          trace := s1.trace ++ [RemoteCall.chatNew]
          threadId := some freshId
          storedThreadId := some freshId },
       none)

/-- The outcome of the `/chat/send` request: the response's run id, or a
rejected promise. -/
inductive SendOutcome
  | success (runId : String)
  | failure (e : TransportError)
deriving DecidableEq, Repr

/-- `sendMessage`: returns silently when a run is already active
(`if (runId !== undefined) return`); otherwise posts `/chat/send` and
records the returned run id as active, or propagates the transport
rejection. -/
def sendMessage (s : AppState) (text : String) (outcome : SendOutcome) :
    AppState × Option JsError :=
  if s.runId.isSome then
    (s, none)
  else
    match outcome with
    | SendOutcome.success rid =>
        ({ s with
            trace := s.trace ++ [RemoteCall.chatSend s.threadId text]
            runId := some rid },
         none)
    | SendOutcome.failure e =>
        ({ s with trace := s.trace ++ [RemoteCall.chatSend s.threadId text] },
         some (JsError.transport e))

/-- `onSendMessage`: trims the typed text, clears the input box, then
awaits `sendMessage` on the trimmed text. -/
def onSendMessage (s : AppState) (outcome : SendOutcome) :
    AppState × Option JsError :=
  let messageToSend := s.message.trim
  sendMessage { s with message := "" } messageToSend outcome

/-- The remote effects of the backend `sendMessage` function, in issue
order. -/
inductive BackendCall
  | messagesCreate (threadId role content : String)
  | runsCreate (threadId assistantId : String)
  | dbInsertMessage (threadId runId text : String)
deriving DecidableEq, Repr

/-- Backend `sendMessage(threadId, text)`: creates the user message on the
thread, then creates the run, then inserts an activity record; each
`await`'s outcome is an explicit argument, and an error aborts the
sequence and propagates.  Returns the trace of calls issued and the
result (the run id on success). -/
def backendSendMessage (threadId text assistantId : String)
    (msgResult : Except TransportError Unit)
    (runResult : Except TransportError String)
    (dbResult : Except TransportError Unit) :
    List BackendCall × Except TransportError String :=
  let tr1 := [BackendCall.messagesCreate threadId "user" text]
  match msgResult with
  | Except.error e => (tr1, Except.error e)
  | Except.ok _ =>
    let tr2 := tr1 ++ [BackendCall.runsCreate threadId assistantId]
    match runResult with
    | Except.error e => (tr2, Except.error e)
    | Except.ok runId =>
      let tr3 := tr2 ++ [BackendCall.dbInsertMessage threadId runId text]
      match dbResult with
      | Except.error e => (tr3, Except.error e)
      | Except.ok _ => (tr3, Except.ok runId)

/-- Agreement on every client-state field the tool handlers never touch
(everything except the three map fields). -/
def FrameEq (s t : AppState) : Prop :=
  t.threadId = s.threadId ∧ t.storedThreadId = s.storedThreadId ∧
  t.runId = s.runId ∧ t.messages = s.messages ∧ t.message = s.message ∧
  t.trace = s.trace ∧ t.scheduledRunClears = s.scheduledRunClears

theorem frameEq_rfl (s : AppState) : FrameEq s s := by
  simp [FrameEq]

theorem frameEq_trans {s t u : AppState} (h1 : FrameEq s t)
    (h2 : FrameEq t u) : FrameEq s u := by
  obtain ⟨a1, b1, c1, d1, e1, f1, g1⟩ := h1
  obtain ⟨a2, b2, c2, d2, e2, f2, g2⟩ := h2
  exact ⟨a2.trans a1, b2.trans b1, c2.trans c1, d2.trans d1, e2.trans e1,
    f2.trans f1, g2.trans g1⟩

/-- Any handler found in the registry only writes the map fields. -/
theorem handler_frameEq (name : String)
    (f : ToolArgs → AppState → AppState × String)
    (hf : chatbotFunctions name = some f) (a : ToolArgs) (s : AppState) :
    FrameEq s (f a s).1 := by
  unfold chatbotFunctions at hf
  by_cases h1 : name = "updateMap"
  · subst h1
    rw [if_pos rfl] at hf
    injection hf with hf
    subst hf
    simp [updateMap, FrameEq]
  · by_cases h2 : name = "addMarker"
    · subst h2
      rw [if_neg h1, if_pos rfl] at hf
      injection hf with hf
      subst hf
      simp [addMarker, FrameEq]
    · rw [if_neg h1, if_neg h2] at hf
      simp at hf

/-- The dispatch loop only writes the map fields; in particular it issues
no remote call and leaves the run id, thread id and message log alone. -/
theorem computeToolOutputs_frameEq :
    ∀ (calls : List ToolCall) (s : AppState),
    FrameEq s (computeToolOutputs calls s).1
  | [], s => by
    simp [computeToolOutputs, frameEq_rfl]
  | tc :: rest, s => by
    unfold computeToolOutputs
    by_cases ht : tc.type = "function"
    · simp only [ht, if_pos rfl]
      cases hcf : chatbotFunctions tc.function.name with
      | none => simp [frameEq_rfl]
      | some f =>
        simp only
        exact frameEq_trans
          (handler_frameEq tc.function.name f hcf tc.function.arguments s)
          (computeToolOutputs_frameEq rest (f tc.function.arguments s).1)
    · simp only [ht, if_neg, ite_false]
      exact computeToolOutputs_frameEq rest s

/-- `invokeChatbotFunctions` can change only the map fields, and appends
at most one request — a `/chat/submit` — to the trace. -/
theorem invokeChatbotFunctions_fields (run : Run) (s : AppState) :
    (invokeChatbotFunctions run s).1.threadId = s.threadId ∧
    (invokeChatbotFunctions run s).1.storedThreadId = s.storedThreadId ∧
    (invokeChatbotFunctions run s).1.runId = s.runId ∧
    (invokeChatbotFunctions run s).1.messages = s.messages ∧
    (invokeChatbotFunctions run s).1.message = s.message ∧
    (invokeChatbotFunctions run s).1.scheduledRunClears = s.scheduledRunClears ∧
    ∃ tail, (invokeChatbotFunctions run s).1.trace = s.trace ++ tail ∧
      ∀ c ∈ tail, RemoteCall.isSubmit c = true := by
  cases hra : run.required_action with
  | none =>
    simp only [invokeChatbotFunctions, hra]
    exact ⟨by trivial, by trivial, by trivial, by trivial, by trivial, by trivial, ⟨[], by simp, by simp⟩⟩
  | some ra =>
    by_cases ht : ra.type = "submit_tool_outputs"
    · obtain ⟨h1, h2, h3, h4, h5, h6, h7⟩ :=
        computeToolOutputs_frameEq ra.tool_calls s
      cases hr : (computeToolOutputs ra.tool_calls s).2 with
      | error e =>
        simp only [invokeChatbotFunctions, hra, ht, eq_self_iff_true, if_true,
          hr]
        exact ⟨h1, h2, h3, h4, h5, h7, ⟨[], by simp [h6], by simp⟩⟩
      | ok outputs =>
        simp only [invokeChatbotFunctions, hra, ht, eq_self_iff_true, if_true,
          hr]
        refine ⟨h1, h2, h3, h4, h5, h7,
          ⟨[RemoteCall.chatSubmit (computeToolOutputs ra.tool_calls s).1.threadId
              (computeToolOutputs ra.tool_calls s).1.runId outputs], ?_, ?_⟩⟩
        · rw [h6]
        · simp [RemoteCall.isSubmit]
    · simp only [invokeChatbotFunctions, hra, ht, if_false, ite_false,
        eq_self_iff_true]
      exact ⟨by trivial, by trivial, by trivial, by trivial, by trivial, by trivial, ⟨[], by simp, by simp⟩⟩

/-- One poll step leaves thread id, stored id, run id and input text
unchanged, replaces the displayed log with the reversed snapshot, and
appends to the trace exactly one `/chat/list` request followed possibly by
one `/chat/submit`. -/
theorem updateMessages_fields (s : AppState) (resp : ListResponse) :
    (updateMessages s resp).1.threadId = s.threadId ∧
    (updateMessages s resp).1.storedThreadId = s.storedThreadId ∧
    (updateMessages s resp).1.runId = s.runId ∧
    (updateMessages s resp).1.message = s.message ∧
    (updateMessages s resp).1.messages = resp.messages.reverse ∧
    ∃ tail,
      (updateMessages s resp).1.trace =
        s.trace ++ [RemoteCall.chatList s.threadId s.runId] ++ tail ∧
      ∀ c ∈ tail, RemoteCall.isSubmit c = true := by
  by_cases hra : resp.status = some "requires_action"
  · cases hrun : resp.run with
    | none =>
      simp only [updateMessages, hra, hrun, eq_self_iff_true, if_true]
      exact ⟨by trivial, by trivial, by trivial, by trivial, by trivial, ⟨[], by simp, by simp⟩⟩
    | some run =>
      obtain ⟨h1, h2, h3, h4, h5, h6, tail, htr, hsub⟩ :=
        invokeChatbotFunctions_fields run
          { s with
              trace := s.trace ++ [RemoteCall.chatList s.threadId s.runId]
              messages := resp.messages.reverse }
      simp only [updateMessages, hra, hrun, eq_self_iff_true, if_true,
        Option.some.injEq]
      have hcompleted : ("requires_action" : String) ≠ "completed" := by decide
      cases he :
          (invokeChatbotFunctions run
            { s with
                trace := s.trace ++ [RemoteCall.chatList s.threadId s.runId]
                messages := resp.messages.reverse }).2 with
      | some e =>
        simp only [he]
        exact ⟨h1, h2, h3, h5, h4, ⟨tail, htr, hsub⟩⟩
      | none =>
        simp only [he, hcompleted, if_false, ite_false]
        split
        · exact ⟨h1, h2, h3, h5, h4, ⟨tail, htr, hsub⟩⟩
        · exact ⟨h1, h2, h3, h5, h4, ⟨tail, htr, hsub⟩⟩
  · simp only [updateMessages, hra, if_false, ite_false]
    split
    · split
      · exact ⟨by trivial, by trivial, by trivial, by trivial, by trivial, ⟨[], by simp, by simp⟩⟩
      · exact ⟨by trivial, by trivial, by trivial, by trivial, by trivial, ⟨[], by simp, by simp⟩⟩
    · exact ⟨by trivial, by trivial, by trivial, by trivial, by trivial, ⟨[], by simp, by simp⟩⟩

/-- An empty `/chat/list` response body. -/
def emptyListResponse : ListResponse :=
  { messages := [], status := none, run := none }

/-- C9: for all arguments, `updateMap` writes only the map center and zoom
and returns the string "Map updated"; `addMarker` writes only the map
marker and returns "Marker added"; neither touches the thread id, stored
thread id, run id or message log, and neither issues a remote request
(the trace is unchanged). -/
theorem toolHandlers_frame (args : ToolArgs) (s : AppState) :
    (updateMap args s).2 = "Map updated" ∧
    (updateMap args s).1.mapCenter =
      { latitude := args.latitude, longitude := args.longitude } ∧
    (updateMap args s).1.mapZoom = args.zoom ∧
    (updateMap args s).1.mapMarker = s.mapMarker ∧
    (updateMap args s).1.threadId = s.threadId ∧
    (updateMap args s).1.storedThreadId = s.storedThreadId ∧
    (updateMap args s).1.runId = s.runId ∧
    (updateMap args s).1.messages = s.messages ∧
    (updateMap args s).1.trace = s.trace ∧
    (addMarker args s).2 = "Marker added" ∧
    (addMarker args s).1.mapMarker = some
      { latitude := args.latitude, longitude := args.longitude
        label := args.label } ∧
    (addMarker args s).1.mapCenter = s.mapCenter ∧
    (addMarker args s).1.mapZoom = s.mapZoom ∧
    (addMarker args s).1.threadId = s.threadId ∧
    (addMarker args s).1.storedThreadId = s.storedThreadId ∧
    (addMarker args s).1.runId = s.runId ∧
    (addMarker args s).1.messages = s.messages ∧
    (addMarker args s).1.trace = s.trace := by
  simp [updateMap, addMarker]

/-- C1 (amended): a second `sendMessage` while a run is active is silently
ignored, not rejected — the first call from the idle state is accepted and
records the run id; the second call returns with no error of any kind
(in particular no ConflictError), leaves the state unchanged, and issues
no remote request. -/
theorem sendMessage_twice_one_accepted_one_ignored
    (s : AppState) (t1 t2 : String) (rid : String) (o2 : SendOutcome)
    (h : s.runId = none) :
    (sendMessage s t1 (SendOutcome.success rid)).2 = none ∧
    (sendMessage s t1 (SendOutcome.success rid)).1.runId = some rid ∧
    sendMessage (sendMessage s t1 (SendOutcome.success rid)).1 t2 o2 =
      ((sendMessage s t1 (SendOutcome.success rid)).1, none) := by
  simp [sendMessage, h]

/-- C1 counterexample: with a run already active, `sendMessage` returns the
state unchanged and delivers no error at all — in particular it does not
produce the ConflictError the claim requires. -/
theorem sendMessage_conflict_counterexample :
    sendMessage
        { initialAppState with threadId := some "thread_1", runId := some "run_1" }
        "hello" (SendOutcome.success "run_2") =
      ({ initialAppState with threadId := some "thread_1", runId := some "run_1" },
       none) ∧
    (sendMessage
        { initialAppState with threadId := some "thread_1", runId := some "run_1" }
        "hello" (SendOutcome.success "run_2")).2 ≠ some JsError.conflictError := by
  constructor
  · simp [sendMessage]
  · simp [sendMessage]

/-- C1 witness: the amended theorem at a concrete idle state. -/
theorem sendMessage_twice_witness :
    (sendMessage { initialAppState with threadId := some "th" } "hi"
        (SendOutcome.success "run_1")).2 = none ∧
    (sendMessage { initialAppState with threadId := some "th" } "hi"
        (SendOutcome.success "run_1")).1.runId = some "run_1" ∧
    sendMessage
        (sendMessage { initialAppState with threadId := some "th" } "hi"
          (SendOutcome.success "run_1")).1 "again" (SendOutcome.success "run_2") =
      ((sendMessage { initialAppState with threadId := some "th" } "hi"
          (SendOutcome.success "run_1")).1, none) :=
  sendMessage_twice_one_accepted_one_ignored _ "hi" "again" "run_1"
    (SendOutcome.success "run_2") rfl

/-- C10: `onSendMessage` clears the input box before the transport call of
`sendMessage` resolves, so when the transport call fails the typed text has
already been discarded: the resulting state has an empty input box and the
transport error is surfaced, with the trimmed text already sent on the
wire and not restored locally. -/
theorem onSendMessage_clears_input_before_send
    (s : AppState) (o : SendOutcome) (e : TransportError)
    (h : s.runId = none) :
    (onSendMessage s o).1.message = "" ∧
    onSendMessage s (SendOutcome.failure e) =
      ({ s with
          message := ""
          trace := s.trace ++ [RemoteCall.chatSend s.threadId s.message.trim] },
       some (JsError.transport e)) := by
  cases o <;> simp [onSendMessage, sendMessage, h]

/-- C10 witness: the theorem at a concrete state with typed text and a
failing transport. -/
theorem onSendMessage_clears_input_witness :
    (onSendMessage { initialAppState with message := " hi " }
        (SendOutcome.failure "boom")).1.message = "" ∧
    onSendMessage { initialAppState with message := " hi " }
        (SendOutcome.failure "boom") =
      ({ initialAppState with
          message := ""
          trace := [RemoteCall.chatSend none (String.trim " hi ")] },
       some (JsError.transport "boom")) :=
  onSendMessage_clears_input_before_send _ (SendOutcome.failure "boom") "boom" rfl

/-- C8: backend `sendMessage` issues the message-create call first, and the
run-create call, when it happens at all, comes immediately after it and
only once the message-create succeeded; when message-create succeeds and
run-create fails, the result is exactly the propagated error with a trace
holding the sent message and the failed run attempt — no database record
and no run id. -/
theorem backendSendMessage_ordering (threadId text assistantId : String)
    (m : Except TransportError Unit) (r : Except TransportError String)
    (d : Except TransportError Unit) :
    (backendSendMessage threadId text assistantId m r d).1.head? =
      some (BackendCall.messagesCreate threadId "user" text) ∧
    (BackendCall.runsCreate threadId assistantId ∈
        (backendSendMessage threadId text assistantId m r d).1 →
      m = Except.ok () ∧
      (backendSendMessage threadId text assistantId m r d).1.take 2 =
        [BackendCall.messagesCreate threadId "user" text,
         BackendCall.runsCreate threadId assistantId]) ∧
    (∀ e, m = Except.ok () → r = Except.error e →
      backendSendMessage threadId text assistantId m r d =
        ([BackendCall.messagesCreate threadId "user" text,
          BackendCall.runsCreate threadId assistantId],
         Except.error e)) := by
  cases m <;> cases r <;> cases d <;> simp [backendSendMessage]

/-- C8 witness: the theorem at a concrete turn where the message is sent
and run creation fails. -/
theorem backendSendMessage_ordering_witness :
    backendSendMessage "th" "hi" "asst" (Except.ok ()) (Except.error "boom")
        (Except.ok ()) =
      ([BackendCall.messagesCreate "th" "user" "hi",
        BackendCall.runsCreate "th" "asst"],
       Except.error "boom") :=
  (backendSendMessage_ordering "th" "hi" "asst" (Except.ok ())
    (Except.error "boom") (Except.ok ())).2.2 "boom" rfl rfl

/-- Recognises the dynamic-lookup failure (a `TypeError`) in a dispatch
result. -/
def isTypeErrorResult (r : Except JsError (List ToolOutput)) : Bool :=
  match r with
  | Except.error (JsError.typeError _) => true
  | _ => false

/-- Recognises the spec's `UnknownFunctionError` in a dispatch result. -/
def isUnknownFunctionResult (r : Except JsError (List ToolOutput)) : Bool :=
  match r with
  | Except.error (JsError.unknownFunction _) => true
  | _ => false

theorem isTypeErrorResult_map (x : Except JsError (List ToolOutput))
    (g : List ToolOutput → List ToolOutput) :
    isTypeErrorResult (x.map g) = isTypeErrorResult x := by
  cases x <;> rfl

theorem isUnknownFunctionResult_map (x : Except JsError (List ToolOutput))
    (g : List ToolOutput → List ToolOutput) :
    isUnknownFunctionResult (x.map g) = isUnknownFunctionResult x := by
  cases x <;> rfl

/-- C3 (amended): a batch containing a function-typed invocation whose name
is not a property of `chatbotFunctions` makes dispatch fail through the
dynamic lookup — calling the `undefined` property raises a `TypeError` —
and never through an explicit UnknownFunctionError. -/
theorem computeToolOutputs_unknown_name_typeError :
    ∀ (calls : List ToolCall) (s : AppState),
    (∃ tc ∈ calls, tc.type = "function" ∧
      chatbotFunctions tc.function.name = none) →
    isTypeErrorResult (computeToolOutputs calls s).2 = true ∧
    isUnknownFunctionResult (computeToolOutputs calls s).2 = false
  | [], s, h => by simp at h
  | tc :: rest, s, h => by
    by_cases ht : tc.type = "function"
    · cases hcf : chatbotFunctions tc.function.name with
      | none =>
        simp [computeToolOutputs, ht, hcf, isTypeErrorResult,
          isUnknownFunctionResult]
      | some f =>
        have hrest : ∃ tc' ∈ rest, tc'.type = "function" ∧
            chatbotFunctions tc'.function.name = none := by
          obtain ⟨tc', htc', hty, hnone⟩ := h
          rcases List.mem_cons.mp htc' with heq | hmem
          · subst heq
            rw [hcf] at hnone
            cases hnone
          · exact ⟨tc', hmem, hty, hnone⟩
        have ih := computeToolOutputs_unknown_name_typeError rest
          (f tc.function.arguments s).1 hrest
        simp only [computeToolOutputs, ht, eq_self_iff_true, if_true, hcf]
        rw [isTypeErrorResult_map, isUnknownFunctionResult_map]
        exact ih
    · have hrest : ∃ tc' ∈ rest, tc'.type = "function" ∧
          chatbotFunctions tc'.function.name = none := by
        obtain ⟨tc', htc', hty, hnone⟩ := h
        rcases List.mem_cons.mp htc' with heq | hmem
        · subst heq
          exact absurd hty ht
        · exact ⟨tc', hmem, hty, hnone⟩
      simp only [computeToolOutputs, ht, if_false, ite_false]
      exact computeToolOutputs_unknown_name_typeError rest s hrest

/-- A batch with a single function-typed call naming an unregistered
function. -/
def unknownNameCalls : List ToolCall :=
  [{ id := "call_9", type := "function"
     function := { name := "fooBar"
                   arguments := { latitude := 0, longitude := 0, zoom := 0
                                  label := "" } } }]

/-- C3 counterexample: on the unknown-name batch the dispatch loop fails
with the dynamic-lookup `TypeError`, not with the UnknownFunctionError the
claim requires. -/
theorem computeToolOutputs_unknown_name_counterexample :
    (computeToolOutputs unknownNameCalls initialAppState).2 =
      Except.error (JsError.typeError "fooBar is not a function") ∧
    isUnknownFunctionResult
      (computeToolOutputs unknownNameCalls initialAppState).2 = false := by
  constructor
  · rfl
  · rfl

/-- C3 witness: the amended theorem at the unknown-name batch. -/
theorem computeToolOutputs_unknown_name_witness :
    isTypeErrorResult (computeToolOutputs unknownNameCalls initialAppState).2 =
      true ∧
    isUnknownFunctionResult
      (computeToolOutputs unknownNameCalls initialAppState).2 = false :=
  computeToolOutputs_unknown_name_typeError unknownNameCalls initialAppState
    ⟨{ id := "call_9", type := "function"
       function := { name := "fooBar"
                     arguments := { latitude := 0, longitude := 0, zoom := 0
                                    label := "" } } },
     by simp [unknownNameCalls], rfl, rfl⟩

/-- C4 (amended): for a batch in which every invocation has type
`"function"` and names a registered handler, the dispatch loop succeeds
and returns exactly one output per invocation, with the output ids equal,
in order, to the invocation ids (hence equal as sets).  Invocations of any
other type are skipped without an output, and an unregistered name aborts
the whole batch, so the claim holds only under these conditions. -/
theorem computeToolOutputs_complete :
    ∀ (calls : List ToolCall) (s : AppState),
    (∀ tc ∈ calls, tc.type = "function" ∧
      (chatbotFunctions tc.function.name).isSome = true) →
    ∃ outs, (computeToolOutputs calls s).2 = Except.ok outs ∧
      outs.map ToolOutput.tool_call_id = calls.map ToolCall.id ∧
      outs.length = calls.length
  | [], s, _ => ⟨[], rfl, rfl, rfl⟩
  | tc :: rest, s, h => by
    obtain ⟨ht, hsome⟩ := h tc (List.mem_cons_self tc rest)
    cases hcf : chatbotFunctions tc.function.name with
    | none => rw [hcf] at hsome; cases hsome
    | some f =>
      obtain ⟨outs, heq, hids, hlen⟩ :=
        computeToolOutputs_complete rest (f tc.function.arguments s).1
          (fun tc' htc' => h tc' (List.mem_cons_of_mem tc htc'))
      refine ⟨{ tool_call_id := tc.id, output := (f tc.function.arguments s).2 }
          :: outs, ?_, ?_, ?_⟩
      · simp only [computeToolOutputs, ht, eq_self_iff_true, if_true, hcf, heq,
          Except.map]
      · simp [hids]
      · simp [hlen]

/-- A batch with a single non-function-typed invocation. -/
def nonFunctionCalls : List ToolCall :=
  [{ id := "call_7", type := "code_interpreter"
     function := { name := "updateMap"
                   arguments := { latitude := 0, longitude := 0, zoom := 0
                                  label := "" } } }]

/-- C4 counterexample: a batch of one pending invocation whose type is not
`"function"` yields zero outputs, so the result count does not match the
invocation count and the id sets differ. -/
theorem computeToolOutputs_count_counterexample :
    (computeToolOutputs nonFunctionCalls initialAppState).2 = Except.ok [] ∧
    nonFunctionCalls.length = 1 := by
  constructor
  · rfl
  · rfl

/-- A well-formed batch: two function-typed invocations of the two
registered handlers. -/
def goodCalls : List ToolCall :=
  [{ id := "call_1", type := "function"
     function := { name := "updateMap"
                   arguments := { latitude := 1, longitude := 2, zoom := 3
                                  label := "" } } },
   { id := "call_2", type := "function"
     function := { name := "addMarker"
                   arguments := { latitude := 4, longitude := 5, zoom := 0
                                  label := "here" } } }]

/-- C4 witness: the amended theorem at the well-formed two-call batch. -/
theorem computeToolOutputs_complete_witness :
    ∃ outs, (computeToolOutputs goodCalls initialAppState).2 = Except.ok outs ∧
      outs.map ToolOutput.tool_call_id = goodCalls.map ToolCall.id ∧
      outs.length = goodCalls.length :=
  computeToolOutputs_complete goodCalls initialAppState (by
    intro tc htc
    rcases List.mem_cons.mp htc with heq | hmem
    · subst heq; exact ⟨rfl, rfl⟩
    · rcases List.mem_cons.mp hmem with heq | hmem
      · subst heq; exact ⟨rfl, rfl⟩
      · cases hmem)

/-- C5 (amended): a poll whose status is `failed` leaves the active-run
slot exactly as it was — the run id is neither cleared immediately nor on
a delay (no clear is scheduled), and no error is surfaced; the poll only
refreshes the log.  Only a `completed` status leads to a (5000 ms delayed)
clear. -/
theorem updateMessages_failed_leaves_run (s : AppState) (resp : ListResponse)
    (h : resp.status = some "failed") :
    updateMessages s resp =
      ({ s with
          trace := s.trace ++ [RemoteCall.chatList s.threadId s.runId]
          messages := resp.messages.reverse },
       none) := by
  have h1 : ¬ resp.status = some "requires_action" := by rw [h]; simp
  have h2 : ¬ resp.status = some "completed" := by rw [h]; simp
  simp [updateMessages, h1, h2]

/-- C5 counterexample: with an active run, a `failed` poll leaves the run
id in place and schedules no clear — the coordinator does not clear the
active run slot, immediately or otherwise. -/
theorem updateMessages_failed_counterexample :
    (updateMessages
        { initialAppState with threadId := some "thread_1", runId := some "run_1" }
        { messages := [], status := some "failed", run := none }).1.runId =
      some "run_1" ∧
    (updateMessages
        { initialAppState with threadId := some "thread_1", runId := some "run_1" }
        { messages := [], status := some "failed", run := none
          }).1.scheduledRunClears = [] := by
  constructor
  · rfl
  · rfl

/-- C5 witness: the amended theorem at a concrete failed poll. -/
theorem updateMessages_failed_witness :
    updateMessages
        { initialAppState with threadId := some "thread_1", runId := some "run_1" }
        { messages := [], status := some "failed", run := none } =
      ({ initialAppState with
          threadId := some "thread_1"
          runId := some "run_1"
          trace := [RemoteCall.chatList (some "thread_1") (some "run_1")] },
       none) :=
  updateMessages_failed_leaves_run _ _ rfl

/-- C7 (amended): the displayed log after a poll is exactly the reverse of
the list the transport returned, independently of all prior client state
(full replacement, no merging) — rendering the same transport-ordered
snapshot twice yields the same display; but the display is not normalised
beyond the reversal, so the newest message ends up last only when the
transport returns newest-first. -/
theorem updateMessages_display_is_reverse (s s' : AppState)
    (resp : ListResponse) :
    (updateMessages s resp).1.messages = resp.messages.reverse ∧
    (updateMessages s resp).1.messages = (updateMessages s' resp).1.messages := by
  have h1 := (updateMessages_fields s resp).2.2.2.2.1
  have h2 := (updateMessages_fields s' resp).2.2.2.2.1
  exact ⟨h1, h1.trans h2.symm⟩

/-- C7 counterexample: the same two-message snapshot delivered in the two
possible transport orders renders in two different displayed orders, so
rendering does not normalise the order (newest-last depends on the
transport order). -/
theorem updateMessages_order_counterexample :
    (updateMessages initialAppState
        { messages := [{ role := "assistant", content := [ContentPart.text "hello"] },
                       { role := "user", content := [ContentPart.text "hi"] }]
          status := none, run := none }).1.messages ≠
    (updateMessages initialAppState
        { messages := [{ role := "user", content := [ContentPart.text "hi"] },
                       { role := "assistant", content := [ContentPart.text "hello"] }]
          status := none, run := none }).1.messages := by
  decide

/-- When the required action is `submit_tool_outputs` and dispatch raised
no error, `invokeChatbotFunctions` posted the collected outputs to
`/chat/submit`. -/
theorem invokeChatbotFunctions_submits (run : Run) (ra : RequiredAction)
    (s : AppState) (hra : run.required_action = some ra)
    (ht : ra.type = "submit_tool_outputs")
    (hok : (invokeChatbotFunctions run s).2 = none) :
    ∃ outs, (invokeChatbotFunctions run s).1.trace =
      s.trace ++ [RemoteCall.chatSubmit s.threadId s.runId outs] := by
  obtain ⟨h1, h2, h3, h4, h5, h6, h7⟩ := computeToolOutputs_frameEq ra.tool_calls s
  cases hr : (computeToolOutputs ra.tool_calls s).2 with
  | error e =>
    simp only [invokeChatbotFunctions, hra, ht, eq_self_iff_true, if_true,
      hr] at hok
    cases hok
  | ok outs =>
    refine ⟨outs, ?_⟩
    simp only [invokeChatbotFunctions, hra, ht, eq_self_iff_true, if_true, hr]
    rw [h6, h1, h3]

/-- C2 (amended): the poll itself dispatches — whenever a poll response has
status `requires_action` with a `submit_tool_outputs` required action and
`updateMessages` returns without error, the tool handlers were executed
and their outputs were posted to `/chat/submit` during the poll; dispatch
is not a separate explicitly invoked step. -/
theorem updateMessages_dispatches_within_poll (s : AppState)
    (resp : ListResponse) (run : Run) (ra : RequiredAction)
    (hst : resp.status = some "requires_action")
    (hrun : resp.run = some run)
    (hra : run.required_action = some ra)
    (ht : ra.type = "submit_tool_outputs")
    (hok : (updateMessages s resp).2 = none) :
    (updateMessages s resp).1.trace.any RemoteCall.isSubmit = true := by
  have hcompleted : ¬ resp.status = some "completed" := by rw [hst]; simp
  cases he :
      (invokeChatbotFunctions run
        { s with
            trace := s.trace ++ [RemoteCall.chatList s.threadId s.runId]
            messages := resp.messages.reverse }).2 with
  | some e =>
    simp only [updateMessages, hst, hrun, eq_self_iff_true, if_true,
      he] at hok
    cases hok
  | none =>
    obtain ⟨outs, htr⟩ := invokeChatbotFunctions_submits run ra _ hra ht he
    simp only [updateMessages, hst, hrun, eq_self_iff_true, if_true, he,
      hcompleted, if_false, ite_false]
    split
    · simp [htr, RemoteCall.isSubmit]
    · simp [htr, RemoteCall.isSubmit]

/-- A tool call asking for `updateMap` at concrete coordinates. -/
def updateMapCall : ToolCall :=
  { id := "call_1", type := "function"
    function := { name := "updateMap"
                  arguments := { latitude := 2, longitude := 3, zoom := 4
                                 label := "" } } }

/-- A run whose required action requests the single `updateMap` call. -/
def requiresActionRun : Run :=
  { required_action := some { type := "submit_tool_outputs"
                              tool_calls := [updateMapCall] } }

/-- A poll response requesting one `updateMap` tool invocation. -/
def requiresActionResp : ListResponse :=
  { messages := []
    status := some "requires_action"
    run := some requiresActionRun }

/-- A client state with an active run and integral map coordinates. -/
def pollDemoState : AppState :=
  { initialAppState with
      threadId := some "thread_1"
      runId := some "run_1"
      mapCenter := { latitude := 0, longitude := 0 } }

/-- C2 counterexample: a single poll on a `requires_action` response
executes the `updateMap` handler as part of the poll — the map center is
changed by `updateMessages` itself — and the outputs are submitted from
within the poll, contradicting the claim that poll never dispatches. -/
theorem updateMessages_autodispatch_counterexample :
    (updateMessages pollDemoState requiresActionResp).1.mapCenter =
      { latitude := 2, longitude := 3 } ∧
    (updateMessages pollDemoState requiresActionResp).1.mapCenter ≠
      pollDemoState.mapCenter ∧
    (updateMessages pollDemoState requiresActionResp).1.trace.any
      RemoteCall.isSubmit = true := by
  refine ⟨rfl, by decide, rfl⟩

/-- C2 witness: the amended theorem at the concrete `requires_action`
poll. -/
theorem updateMessages_dispatches_witness :
    (updateMessages pollDemoState requiresActionResp).1.trace.any
      RemoteCall.isSubmit = true :=
  updateMessages_dispatches_within_poll pollDemoState requiresActionResp _ _
    rfl rfl rfl rfl rfl

/-- When the thread id has to be restored from storage, `createThread`
behaves as the restore poll: its resulting state is the poll's. -/
theorem createThread_restores (s : AppState) (f t : String)
    (r : ListResponse) (h0 : s.threadId = none)
    (hst : s.storedThreadId = some t) :
    (createThread s f r).1 = (updateMessages { s with threadId := some t } r).1 := by
  have hth := (updateMessages_fields { s with threadId := some t } r).1
  cases he : (updateMessages { s with threadId := some t } r).2 with
  | some e =>
    simp only [hst] at hth he ⊢
    simp [createThread, h0, hst, he]
  | none =>
    simp only [hst] at hth he ⊢
    simp [createThread, h0, hst, he, hth]

/-- C6: `createThread` is idempotent and its persistence round-trips.
With a thread id already in memory it is a no-op.  With no id in memory
but one in storage, it restores that id, persists nothing new, requests no
new thread (any `/chat/new` in the trace was already there) and issues a
poll against the restored id and the held run state.  From a blank state
it creates and persists a fresh id, and a later session that kept only the
persisted storage gets the same id back rather than a new one. -/
theorem createThread_idempotent_roundtrip (s : AppState) (f f' t : String)
    (r r' : ListResponse) :
    (s.threadId.isSome = true → createThread s f r = (s, none)) ∧
    (s.threadId = none → s.storedThreadId = some t →
      (createThread s f r).1.threadId = some t ∧
      (createThread s f r).1.storedThreadId = some t ∧
      (∀ c ∈ (createThread s f r).1.trace, c = RemoteCall.chatNew →
        c ∈ s.trace) ∧
      RemoteCall.chatList (some t) s.runId ∈ (createThread s f r).1.trace) ∧
    (s.threadId = none → s.storedThreadId = none →
      createThread s f r =
        ({ s with
            trace := s.trace ++ [RemoteCall.chatNew]
            threadId := some f
            storedThreadId := some f }, none) ∧
      (createThread { (createThread s f r).1 with threadId := none } f'
        r').1.threadId = some f) := by
  refine ⟨?_, ?_, ?_⟩
  · intro h
    obtain ⟨tid, htid⟩ := Option.isSome_iff_exists.mp h
    simp [createThread, htid]
  · intro h0 hst
    have hcr := createThread_restores s f t r h0 hst
    obtain ⟨h1, h2, h3, h4, h5, tail, htr, hsub⟩ :=
      updateMessages_fields { s with threadId := some t } r
    refine ⟨?_, ?_, ?_, ?_⟩
    · rw [hcr]; exact h1
    · rw [hcr, h2]; exact hst
    · intro c hc hnew
      rw [hcr, htr] at hc
      simp only [List.mem_append] at hc
      rcases hc with (hc | hc) | hc
      · exact hc
      · simp only [List.mem_singleton] at hc
        rw [hnew] at hc
        cases hc
      · have := hsub c hc
        rw [hnew] at this
        simp [RemoteCall.isSubmit] at this
    · rw [hcr, htr]
      simp
  · intro h0 hsn
    have he1 : createThread s f r =
        ({ s with
            trace := s.trace ++ [RemoteCall.chatNew]
            threadId := some f
            storedThreadId := some f }, none) := by
      simp [createThread, h0, hsn]
    refine ⟨he1, ?_⟩
    rw [he1]
    have hcr2 := createThread_restores
      { s with
          trace := s.trace ++ [RemoteCall.chatNew]
          threadId := none
          storedThreadId := some f } f' f r' rfl rfl
    have hth2 := (updateMessages_fields
      { s with
          trace := s.trace ++ [RemoteCall.chatNew]
          threadId := some f
          storedThreadId := some f } r').1
    rw [hcr2] at *
    exact hth2

/-- C6 witness: the round-trip part of the theorem at a blank initial
state: the fresh id `"th_1"` is created and persisted, and the reloaded
session returns the same id. -/
theorem createThread_roundtrip_witness :
    createThread initialAppState "th_1" emptyListResponse =
      ({ initialAppState with
          trace := [RemoteCall.chatNew]
          threadId := some "th_1"
          storedThreadId := some "th_1" }, none) ∧
    (createThread
      { (createThread initialAppState "th_1" emptyListResponse).1 with
          threadId := none } "th_2" emptyListResponse).1.threadId =
      some "th_1" :=
  (createThread_idempotent_roundtrip initialAppState "th_1" "th_2" "unused"
    emptyListResponse emptyListResponse).2.2 rfl rfl

end Wunderlust
